import Mathlib

/-!
Shallow embedding of the BrightCare turn-processing pipeline
(`server/openai-agent.ts`): pattern guardrails, prompt composer,
evaluator agent, and the two turn orchestrators `processMessage` and
`processEphemeralMessage`.

Text is modelled as `String`, with all scanning done on the underlying
`List Char`.  JavaScript regex character classes are modelled on their
ASCII core (`\w = [A-Za-z0-9_]`, `\d = [0-9]`, `\s` restricted to the
ASCII whitespace characters).  JavaScript truthiness coercions
(`x || d`) are modelled explicitly by `jsOr*` helpers.  The storage
collaborator is assumed to succeed: trace persistence is modelled as a
pure list of emitted records, and the two upstream model calls are
parameters of the environment.  The wall-clock `responseTimeMs` field
of a trace row is elided.
-/

/-- JS `\w` (ASCII): letters, digits, underscore. -/
def wordChar (c : Char) : Bool :=
  (('a' ≤ c && c ≤ 'z') || ('A' ≤ c && c ≤ 'Z') || ('0' ≤ c && c ≤ '9') || c = '_')

/-- JS `\d`: ASCII digits. -/
def isDigitC (c : Char) : Bool := '0' ≤ c && c ≤ '9'

/-- ASCII letters. -/
def isAlphaC (c : Char) : Bool := ('a' ≤ c && c ≤ 'z') || ('A' ≤ c && c ≤ 'Z')

/-- JS `\s`, ASCII core. -/
def isSpaceC (c : Char) : Bool := c = ' ' || c = '\t' || c = '\n' || c = '\r'

/-- ASCII lower-casing, as `String.prototype.toLowerCase` acts on ASCII. -/
def lowerChar (c : Char) : Char :=
  if 'A' ≤ c && c ≤ 'Z' then Char.ofNat (c.toNat + 32) else c

/-- Lower-cased character list of a string (JS `toLowerCase`). -/
def lowerData (s : String) : List Char := s.data.map lowerChar

/-- JS `String.prototype.includes`: `needle` occurs as a contiguous infix of `hay`. -/
def containsSub (needle : List Char) : List Char → Bool
  | [] => needle.isEmpty
  | c :: rest => needle.isPrefixOf (c :: rest) || containsSub needle rest

def isWordOpt : Option Char → Bool
  | none => false
  | some c => wordChar c

/-- Regex `\b` at the position between `prev` and the head of `rest`. -/
def boundary (prev : Option Char) (rest : List Char) : Bool :=
  isWordOpt prev != isWordOpt rest.head?

/-- Regex `\b` immediately after a matched word character. -/
def endAfterWord : List Char → Bool
  | [] => true
  | c :: _ => !wordChar c

/-- Consume exactly `n` digits, returning the remainder. -/
def digitsN : Nat → List Char → Option (List Char)
  | 0, cs => some cs
  | _ + 1, [] => none
  | n + 1, c :: rest => if isDigitC c then digitsN n rest else none

/-- Both remainders allowed by `[-.]?`: consuming the separator or not. -/
def sepAlts (cs : List Char) : List (List Char)
  := match cs with
  | c :: rest => if c = '-' || c = '.' then [cs, rest] else [cs]
  | [] => [[]]

/-- Remainders after consuming at least one leading character of class `cls`
(the splits explored by a regex `+` quantifier). -/
def plusSplits (cls : Char → Bool) : List Char → List (List Char)
  | [] => []
  | c :: rest => if cls c then rest :: plusSplits cls rest else []

/-- Remainders after consuming between 1 and `n` leading characters of class
`cls` (a regex `{1,n}` quantifier). -/
def uptoSplits (cls : Char → Bool) : Nat → List Char → List (List Char)
  | 0, _ => []
  | _ + 1, [] => []
  | n + 1, c :: rest => if cls c then rest :: uptoSplits cls n rest else []

/-- Grouped-digit pattern `\d{a}[-.]?\d{b}[-.]?\d{c}\b` matching at the head. -/
def grpHere (a b c : Nat) (cs : List Char) : Bool :=
  match digitsN a cs with
  | none => false
  | some r1 => (sepAlts r1).any fun r2 =>
      match digitsN b r2 with
      | none => false
      | some r3 => (sepAlts r3).any fun r4 =>
          match digitsN c r4 with
          | none => false
          | some r5 => endAfterWord r5

/-- Pattern `\d{3}[-.]?\d{2}[-.]?\d{4}\b` (US-style SSN), matching at the head. -/
def ssnHere (cs : List Char) : Bool := grpHere 3 2 4 cs

/-- Pattern `\d{3}[-.]?\d{3}[-.]?\d{4}\b` (phone number), matching at the head. -/
def phoneHere (cs : List Char) : Bool := grpHere 3 3 4 cs

/-- Local-part class `[a-zA-Z0-9._%+-]`. -/
def emailLocalChar (c : Char) : Bool :=
  isAlphaC c || isDigitC c || c = '.' || c = '_' || c = '%' || c = '+' || c = '-'

/-- Domain class `[a-zA-Z0-9.-]`. -/
def emailDomainChar (c : Char) : Bool :=
  isAlphaC c || isDigitC c || c = '.' || c = '-'

/-- Pattern `[a-zA-Z0-9._%+-]+@[a-zA-Z0-9.-]+\.[a-zA-Z]{2,}\b`, matching at the head. -/
def emailHere (cs : List Char) : Bool :=
  (plusSplits emailLocalChar cs).any fun r1 =>
    match r1 with
    | '@' :: r2 =>
        (plusSplits emailDomainChar r2).any fun r3 =>
          match r3 with
          | '.' :: (a :: r5) =>
              isAlphaC a && (plusSplits isAlphaC r5).any endAfterWord
          | _ => false
    | _ => false

/-- Street-suffix alternation of the address pattern (matched case-insensitively). -/
def streetSuffixes : List String :=
  ["street", "st", "avenue", "ave", "road", "rd", "drive", "dr",
   "lane", "ln", "boulevard", "blvd"]

/-- Case-insensitive literal match of `pat` at the head of `cs`. -/
def ciPrefixMatch : List Char → List Char → Option (List Char)
  | [], rest => some rest
  | _ :: _, [] => none
  | p :: ps, c :: rest => if lowerChar c = p then ciPrefixMatch ps rest else none

/-- Pattern `\d{1,5}\s+\w+\s+(street|st|...|blvd)\b` with the `i` flag, matching at the head. -/
def streetHere (cs : List Char) : Bool :=
  (uptoSplits isDigitC 5 cs).any fun r1 =>
    (plusSplits isSpaceC r1).any fun r2 =>
      (plusSplits wordChar r2).any fun r3 =>
        (plusSplits isSpaceC r3).any fun r4 =>
          streetSuffixes.any fun suf =>
            match ciPrefixMatch suf.data r4 with
            | some r5 => endAfterWord r5
            | none => false

/-- Scan for a match of `m` (which begins with `\b`) starting at any position;
`prev` is the character just before the current position. -/
def scanFrom (m : List Char → Bool) (prev : Option Char) : List Char → Bool
  | [] => boundary prev [] && m []
  | c :: rest => (boundary prev (c :: rest) && m (c :: rest)) || scanFrom m (some c) rest

/-- JS `RegExp.prototype.test` for a `\b`-anchored pattern body `m`. -/
def testPat (m : List Char → Bool) (s : String) : Bool :=
  scanFrom m none s.data

/-- Result record of the two guardrail checks: `{ passed, reason? }`. -/
structure GuardrailResult where
  passed : Bool
  reason : Option String
deriving DecidableEq

/-- The four input PII patterns, in source order: SSN, phone, email, street address. -/
def inputPiiPatterns : List (List Char → Bool) :=
  [ssnHere, phoneHere, emailHere, streetHere]

/-- Canned PII rejection reason of the input guardrail. -/
def inputPiiReason : String :=
  "Input contains potential PII (personal identifiable information). For your safety, please do not share personal information in chat."

/-- Fixed prompt-injection phrase list. -/
def injectionPhrases : List String :=
  ["ignore previous", "ignore your instructions", "ignore all previous",
   "disregard", "forget your rules", "pretend you are", "act as if you are not",
   "reveal your prompt", "show me your instructions", "what are your system",
   "override", "jailbreak", "do anything now", "developer mode"]

/-- Canned scope/injection rejection reason of the input guardrail. -/
def injectionReason : String :=
  "Your message appears to contain content that falls outside the scope of daycare-related inquiries."

/-- Model of `checkInputGuardrails(userMessage)`: PII patterns on the raw text first,
then injection phrases on the lower-cased text. -/
def checkInputGuardrails (userMessage : String) : GuardrailResult :=
  if inputPiiPatterns.any (fun m => testPat m userMessage) then
    ⟨false, some inputPiiReason⟩
  else
    let lowerMsg := lowerData userMessage
    if injectionPhrases.any (fun p => containsSub p.data lowerMsg) then
      ⟨false, some injectionReason⟩
    else
      ⟨true, none⟩

/-- The output PII patterns, in source order; note the source lists only
SSN, phone and email here — the street-address pattern of the input check
is absent. -/
def outputPiiPatterns : List (List Char → Bool) :=
  [ssnHere, phoneHere, emailHere]

/-- Canned PII rejection reason of the output guardrail. -/
def outputPiiReason : String :=
  "Response contains potential PII data that violates COPPA/FERPA compliance."

/-- Fixed sensitive-topic keyword list of the output guardrail. -/
def sensitiveKeywords : List String :=
  ["social security", "ssn", "date of birth", "home address",
   "medical record", "diagnosis", "prescription", "irs",
   "bank account", "credit card", "routing number"]

/-- The per-keyword test of the output guardrail loop: keyword present in the
lower-cased reply and neither safe-harbor phrase present. -/
def sensitiveHit (lowerResponse : List Char) (keyword : String) : Bool :=
  containsSub keyword.data lowerResponse
    && !containsSub "we do not".data lowerResponse
    && !containsSub "never share".data lowerResponse

/-- Model of `checkOutputGuardrails(response)`: three PII patterns on the raw reply,
then the sensitive-keyword/safe-harbor loop on the lower-cased reply. -/
def checkOutputGuardrails (response : String) : GuardrailResult :=
  if outputPiiPatterns.any (fun m => testPat m response) then
    ⟨false, some outputPiiReason⟩
  else
    let lowerResponse := lowerData response
    match sensitiveKeywords.find? (sensitiveHit lowerResponse) with
    | some keyword =>
        ⟨false, some ("Response references sensitive information: \"" ++ keyword ++ "\"")⟩
    | none => ⟨true, none⟩

/-- JS `v || d` on an optional string: `undefined` and `""` are falsy. -/
def jsOrStr (v : Option String) (d : String) : String :=
  match v with
  | none => d
  | some s => if s = "" then d else s

/-- JS `v || null` on an optional string. -/
def jsOrNullStr (v : Option String) : Option String :=
  match v with
  | none => none
  | some s => if s = "" then none else some s

/-- JS `v || d` on an optional number: `undefined` and `0` are falsy. -/
def jsOrInt (v : Option Int) (d : Int) : Int :=
  match v with
  | none => d
  | some n => if n = 0 then d else n

/-- JS `v || 0` on an optional count. -/
def jsOrZero (v : Option Nat) : Nat :=
  match v with
  | none => 0
  | some n => n

/-- An active knowledge-base document as read from storage. -/
structure ActiveDocument where
  title : String
  category : String
  content : String
deriving DecidableEq

/-- An active instruction prompt as read from storage. -/
structure ActivePrompt where
  content : String
deriving DecidableEq

/-- Fixed persona/compliance preamble of the system prompt, up to and
including the knowledge-base header. -/
def basePreamble : String :=
  "You are BrightBot, the friendly and helpful AI assistant for BrightCare Daycare. You help parents, caregivers, and guardians with questions about our daycare facility.\n\nIMPORTANT RULES:\n- Always begin by thanking the parent for their question or inquiry\n- Be respectful, empathetic, and friendly in all responses\n- Only answer questions related to BrightCare Daycare and its operations\n- NEVER reveal any child\x27s personally identifiable information (PII) such as names, addresses, medical records, or any sensitive data\n- NEVER share internal company information, staff personal details, or confidential operational data\n- Comply with COPPA (Children\x27s Online Privacy Protection Act) and FERPA (Family Educational Rights and Privacy Act) regulations at all times\n- If asked about topics unrelated to the daycare facility, respond with: \"I\x27m sorry. I can\x27t help you with that, but I can answer any questions regarding this facility and its operations.\"\n- If you don\x27t have specific information about a topic, say so honestly and suggest the parent contact the facility directly\n\nFACILITY KNOWLEDGE BASE:\n"

/-- Model of `buildSystemPrompt()`: preamble + active documents, plus an
ADDITIONAL INSTRUCTIONS section when the joined prompt bodies are nonempty. -/
def buildSystemPrompt (activePrompts : List ActivePrompt)
    (activeDocuments : List ActiveDocument) : String :=
  let basePrompt := basePreamble ++
    String.intercalate "\n\n" (activeDocuments.map fun doc =>
      "--- " ++ doc.title ++ " (" ++ doc.category ++ ") ---\n" ++ doc.content)
  let customPrompts := String.intercalate "\n\n" (activePrompts.map (·.content))
  if customPrompts ≠ "" then
    basePrompt ++ "\n\nADDITIONAL INSTRUCTIONS:\n" ++ customPrompts
  else
    basePrompt

/-- The parsed shape of the evaluator model's JSON reply `{score, feedback}`;
either field may be absent. -/
structure EvalJson where
  score : Option Int
  feedback : Option String
deriving DecidableEq

/-- The content of the evaluator completion's first choice: absent/empty
(JS falsy, replaced by the default JSON string), present but not valid JSON
(`JSON.parse` throws), or parsed. -/
inductive EvalContent where
  | missing : EvalContent
  | unparsable : EvalContent
  | parsed : EvalJson → EvalContent
deriving DecidableEq

/-- Outcome of the evaluator's upstream completion call. -/
inductive EvalOutcome where
  | fail : EvalOutcome
  | ok : Option String → EvalContent → EvalOutcome
deriving DecidableEq

/-- Result record of `runEvaluatorAgent`. -/
structure EvalResult where
  score : Int
  feedback : String
  traceId : Option String
deriving DecidableEq

/-- The default JSON substituted for a falsy evaluator content:
`{"score": 70, "feedback": "Unable to fully evaluate"}`. -/
def evalDefaultJson : EvalJson :=
  ⟨some 70, some "Unable to fully evaluate"⟩

/-- Model of `runEvaluatorAgent(userMessage, assistantResponse)`: clamp the parsed
score through JS `||` fallback; any thrown error (upstream failure or
`JSON.parse` failure) yields the fixed fallback result. -/
def runEvaluatorAgent (outcome : EvalOutcome) : EvalResult :=
  match outcome with
  | .fail => ⟨70, "Evaluator unavailable - default score applied.", none⟩
  | .ok id content =>
    match content with
    | .unparsable => ⟨70, "Evaluator unavailable - default score applied.", none⟩
    | .missing =>
        ⟨max 0 (min 100 (jsOrInt evalDefaultJson.score 70)),
         jsOrStr evalDefaultJson.feedback "Evaluation completed.",
         jsOrNullStr id⟩
    | .parsed j =>
        ⟨max 0 (min 100 (jsOrInt j.score 70)),
         jsOrStr j.feedback "Evaluation completed.",
         jsOrNullStr id⟩

/-- Token usage of a completion; each field may be absent. -/
structure ChatUsage where
  prompt_tokens : Option Nat
  completion_tokens : Option Nat
  total_tokens : Option Nat
deriving DecidableEq

/-- A successful chat completion: `completion.id`, `completion.model`,
`completion.choices[0]?.message?.content` (`none` when the chain is absent),
and `completion.usage`. -/
structure ChatCompletion where
  id : Option String
  model : Option String
  content : Option String
  usage : Option ChatUsage
deriving DecidableEq

/-- JS `usage?.field || 0`. -/
def usageTok (u : Option ChatUsage) (f : ChatUsage → Option Nat) : Nat :=
  match u with
  | none => 0
  | some uu => jsOrZero (f uu)

/-- One persisted trace row (`storage.createTraceLog` argument); the
wall-clock `responseTimeMs` field is elided. -/
structure TraceRecord where
  conversationId : Nat
  traceId : Option String
  model : String
  promptTokens : Nat
  completionTokens : Nat
  totalTokens : Nat
  userMessage : String
  assistantMessage : Option String
  guardrailResult : String
  evaluatorScore : Option Int
  evaluatorFeedback : Option String
  blocked : Bool
  blockReason : Option String
deriving DecidableEq

/-- The `{content, blocked, blockReason?}` value returned to the caller. -/
structure ChatReply where
  content : String
  blocked : Bool
  blockReason : Option String
deriving DecidableEq

/-- One prior message of a conversation or of the caller-supplied
ephemeral history. -/
structure HistMsg where
  role : String
  content : String
deriving DecidableEq

/-- Environment of one turn: storage reads and the outcomes of the two
upstream model calls (the error case carries `error.message`). -/
structure AgentEnv where
  activeDocuments : List ActiveDocument
  activePrompts : List ActivePrompt
  messages : List HistMsg
  completion : Except String ChatCompletion
  evaluator : EvalOutcome

/-- Observable outcome of one orchestrated turn: the value returned or
error thrown, the trace rows persisted, and how many completion-endpoint
and evaluator calls were issued. -/
structure ProcOut where
  result : Except String ChatReply
  traces : List TraceRecord
  completionCalls : Nat
  evaluatorCalls : Nat

/-- Canned refusal sentence used when the input guardrail blocks. -/
def blockedResponse : String :=
  "I\x27m sorry. I can\x27t help you with that, but I can answer any questions regarding this facility and its operations."

/-- Canned safety-fallback sentence used when the output guardrail blocks. -/
def safeResponse : String :=
  "I apologize, but I encountered an issue generating a safe response. Please contact the facility directly for assistance."

/-- Fallback assistant reply substituted for a falsy completion content. -/
def emptyReplyFallback : String :=
  "I apologize, but I was unable to generate a response. Please try again."

/-- Message of the generic error re-raised on an upstream completion failure. -/
def genericFailure : String :=
  "Failed to process message. Please try again."

/-- Model of `processMessage(conversationId, userMessage)`: input guardrail, prompt
build, completion call, output guardrail, evaluator, with one trace row
persisted on every terminal path. -/
def processMessage (env : AgentEnv) (conversationId : Nat)
    (userMessage : String) : ProcOut :=
  let guardrailCheck := checkInputGuardrails userMessage
  if !guardrailCheck.passed then
    { result := .ok ⟨blockedResponse, true, guardrailCheck.reason⟩
      traces := [{ conversationId
                   traceId := none
                   model := "guardrail-input"
                   promptTokens := 0
                   completionTokens := 0
                   totalTokens := 0
                   userMessage
                   assistantMessage := some blockedResponse
                   guardrailResult := jsOrStr guardrailCheck.reason "blocked"
                   evaluatorScore := none
                   evaluatorFeedback := none
                   blocked := true
                   blockReason := some (jsOrStr guardrailCheck.reason "Guardrail violation") }]
      completionCalls := 0
      evaluatorCalls := 0 }
  else
    match env.completion with
    | .error errMessage =>
      { result := .error genericFailure
        traces := [{ conversationId
                     traceId := none
                     model := "gpt-4o-mini"
                     promptTokens := 0
                     completionTokens := 0
                     totalTokens := 0
                     userMessage
                     assistantMessage := none
                     guardrailResult := "error"
                     evaluatorScore := none
                     evaluatorFeedback := some errMessage
                     blocked := false
                     blockReason := none }]
        completionCalls := 1
        evaluatorCalls := 0 }
    | .ok completion =>
      let assistantContent := jsOrStr completion.content emptyReplyFallback
      let outputCheck := checkOutputGuardrails assistantContent
      if !outputCheck.passed then
        { result := .ok ⟨safeResponse, true, outputCheck.reason⟩
          traces := [{ conversationId
                       traceId := jsOrNullStr completion.id
                       model := jsOrStr completion.model "gpt-4o-mini"
                       promptTokens := usageTok completion.usage (·.prompt_tokens)
                       completionTokens := usageTok completion.usage (·.completion_tokens)
                       totalTokens := usageTok completion.usage (·.total_tokens)
                       userMessage
                       assistantMessage := some safeResponse
                       guardrailResult := "Output blocked: " ++ outputCheck.reason.getD ""
                       evaluatorScore := some 0
                       evaluatorFeedback := some "Response blocked by output guardrails"
                       blocked := true
                       blockReason := some (jsOrStr outputCheck.reason "Output guardrail violation") }]
          completionCalls := 1
          evaluatorCalls := 0 }
      else
        let evaluation := runEvaluatorAgent env.evaluator
        { result := .ok ⟨assistantContent, false, none⟩
          traces := [{ conversationId
                       traceId := jsOrNullStr completion.id
                       model := jsOrStr completion.model "gpt-4o-mini"
                       promptTokens := usageTok completion.usage (·.prompt_tokens)
                       completionTokens := usageTok completion.usage (·.completion_tokens)
                       totalTokens := usageTok completion.usage (·.total_tokens)
                       userMessage
                       assistantMessage := some assistantContent
                       guardrailResult := "passed"
                       evaluatorScore := some evaluation.score
                       evaluatorFeedback := some evaluation.feedback
                       blocked := false
                       blockReason := none }]
          completionCalls := 1
          evaluatorCalls := 1 }

/-- Model of `processEphemeralMessage(userMessage, history)`: the same
guardrail–generate–guardrail chain with caller-supplied history, but with
no trace persistence and no evaluator call on any path. -/
def processEphemeralMessage (env : AgentEnv) (userMessage : String)
    (history : List HistMsg) : ProcOut :=
  let guardrailCheck := checkInputGuardrails userMessage
  if !guardrailCheck.passed then
    { result := .ok ⟨blockedResponse, true, guardrailCheck.reason⟩
      traces := []
      completionCalls := 0
      evaluatorCalls := 0 }
  else
    match env.completion with
    | .error _ =>
      { result := .error genericFailure
        traces := []
        completionCalls := 1
        evaluatorCalls := 0 }
    | .ok completion =>
      let assistantContent := jsOrStr completion.content emptyReplyFallback
      let outputCheck := checkOutputGuardrails assistantContent
      if !outputCheck.passed then
        { result := .ok ⟨safeResponse, true, outputCheck.reason⟩
          traces := []
          completionCalls := 1
          evaluatorCalls := 0 }
      else
        { result := .ok ⟨assistantContent, false, none⟩
          traces := []
          completionCalls := 1
          evaluatorCalls := 0 }

/-- Turn environment whose completion call throws a network error. -/
def envFail : AgentEnv :=
  { activeDocuments := []
    activePrompts := []
    messages := []
    completion := .error "network down"
    evaluator := .fail }

/-- Turn environment whose completion call succeeds but returns a first
choice without message content. -/
def envEmptyContent : AgentEnv :=
  { activeDocuments := []
    activePrompts := []
    messages := []
    completion := .ok ⟨some "cmpl-7", some "gpt-4o-mini", none, none⟩
    evaluator := .ok (some "ev-7") (.parsed ⟨some 85, some "Good"⟩) }

/-- C1: every `processMessage` call persists exactly one trace record —
each of the four terminal paths (input-guardrail block, upstream failure,
output-guardrail block, evaluate-and-record) emits exactly one
`createTraceLog` call, assuming storage operations succeed. -/
theorem processMessage_exactly_one_trace (env : AgentEnv)
    (conversationId : Nat) (userMessage : String) :
    (processMessage env conversationId userMessage).traces.length = 1 := by
  unfold processMessage
  dsimp only
  repeat' split
  all_goals rfl

/-- C2 counterexample: on an input-guardrail block the persisted trace
record's `assistantMessage` is the canned refusal sentence, not `null` —
refuting the claim that it is null, at the concrete blocked input
`"123-45-6789"`. -/
theorem inputBlocked_trace_assistant_not_null_cex :
    (checkInputGuardrails "123-45-6789").passed = false ∧
    (processMessage envFail 1 "123-45-6789").traces.map (fun t => t.assistantMessage)
      = [some blockedResponse] ∧
    some blockedResponse ≠ (none : Option String) := by
  refine ⟨by decide, by decide, by decide⟩

/-- C2 (amended): for every `processMessage` call in which the input
guardrail check fails, the single persisted trace record's
`assistantMessage` is the canned refusal sentence (it is `null` only on
the upstream-failure path). -/
theorem inputBlocked_trace_assistant_is_refusal (env : AgentEnv)
    (conversationId : Nat) (userMessage : String)
    (h : (checkInputGuardrails userMessage).passed = false) :
    (processMessage env conversationId userMessage).traces.map (fun t => t.assistantMessage)
      = [some blockedResponse] := by
  unfold processMessage
  dsimp only
  rw [h]
  rfl

/-- C2 witness: the amended statement at the blocked input `"123-45-6789"`. -/
theorem inputBlocked_trace_assistant_is_refusal_w :
    (checkInputGuardrails "123-45-6789").passed = false ∧
    (processMessage envFail 1 "123-45-6789").traces.map (fun t => t.assistantMessage)
      = [some blockedResponse] :=
  ⟨by decide, inputBlocked_trace_assistant_is_refusal envFail 1 "123-45-6789" (by decide)⟩

/-- C3 counterexample: the reply `"123 Main Street"` matches the
street-address pattern, matches no other PII pattern, and contains no
sensitive keyword, yet `checkOutputGuardrails` passes it — the output
check does not apply the street-address pattern. -/
theorem checkOutput_street_only_passes_cex :
    testPat streetHere "123 Main Street" = true ∧
    testPat ssnHere "123 Main Street" = false ∧
    testPat phoneHere "123 Main Street" = false ∧
    testPat emailHere "123 Main Street" = false ∧
    (sensitiveKeywords.all fun k => !containsSub k.data (lowerData "123 Main Street")) = true ∧
    (checkOutputGuardrails "123 Main Street").passed = true := by
  refine ⟨by decide, by decide, by decide, by decide, by decide, by decide⟩

/-- C3 (amended): `checkOutputGuardrails` applies only the SSN, phone and
email PII patterns — the street-address pattern of the input check is
absent — so every reply that matches the street-address pattern but no
other PII pattern and contains no sensitive keyword passes the output
check. -/
theorem checkOutput_no_street_pattern (r : String)
    (hs : testPat streetHere r = true)
    (h1 : testPat ssnHere r = false)
    (h2 : testPat phoneHere r = false)
    (h3 : testPat emailHere r = false)
    (hk : (sensitiveKeywords.all fun k => !containsSub k.data (lowerData r)) = true) :
    (checkOutputGuardrails r).passed = true := by
  unfold checkOutputGuardrails
  have hp : outputPiiPatterns.any (fun m => testPat m r) = false := by
    simp [outputPiiPatterns, h1, h2, h3]
  rw [hp]
  have hfind : sensitiveKeywords.find? (sensitiveHit (lowerData r)) = none := by
    rw [List.find?_eq_none]
    intro k hkmem
    have hck : containsSub k.data (lowerData r) = false := by
      have := List.all_eq_true.mp hk k hkmem
      simpa using this
    simp [sensitiveHit, hck]
  simp only [Bool.false_eq_true, if_false, hfind]

/-- C3 witness: the amended statement at the concrete reply
`"123 Main Street"`. -/
theorem checkOutput_no_street_pattern_w :
    testPat streetHere "123 Main Street" = true ∧
    (checkOutputGuardrails "123 Main Street").passed = true :=
  ⟨by decide, checkOutput_no_street_pattern "123 Main Street"
    (by decide) (by decide) (by decide) (by decide) (by decide)⟩

/-- C4 counterexample: when the evaluator model returns the numeric score
0, `runEvaluatorAgent` returns the fallback 70, not `0` clamped into
`[0,100]` (which is `0`) — JS `evalResult.score || 70` treats 0 as falsy. -/
theorem evaluator_zero_score_cex :
    (runEvaluatorAgent (.ok (some "ev-0") (.parsed ⟨some 0, some "PII disclosed"⟩))).score = 70 ∧
    max 0 (min 100 (0 : Int)) = 0 ∧
    (runEvaluatorAgent (.ok (some "ev-0") (.parsed ⟨some 0, some "PII disclosed"⟩))).score
      ≠ max 0 (min 100 (0 : Int)) := by
  refine ⟨by decide, by decide, by decide⟩

/-- C4 (amended): for every nonzero numeric score value the evaluator
model returns in its parsed JSON, `runEvaluatorAgent`'s returned score is
that value clamped into `[0,100]`; a missing score value — and likewise a
returned score of 0, which is falsy in JS — yields the fallback score 70. -/
theorem evaluator_score_clamped_unless_falsy (id : Option String) (j : EvalJson) :
    (runEvaluatorAgent (.ok id (.parsed j))).score =
      match j.score with
      | none => 70
      | some v => if v = 0 then 70 else max 0 (min 100 v) := by
  unfold runEvaluatorAgent jsOrInt
  rcases j with ⟨s, f⟩
  rcases s with _ | v
  · rfl
  · dsimp only
    by_cases hv : v = 0 <;> simp [hv]

/-- C5: for every input matching any of the SSN, phone, email or
street-address PII patterns, `checkInputGuardrails` returns
`passed = false` with the PII reason — the PII reason is reported even if
an injection phrase is also present, since the PII loop runs first — and
`processMessage` issues no completion-endpoint call for such an input. -/
theorem checkInput_pii_blocks_no_model_call (env : AgentEnv)
    (conversationId : Nat) (userMessage : String)
    (h : inputPiiPatterns.any (fun m => testPat m userMessage) = true) :
    checkInputGuardrails userMessage = ⟨false, some inputPiiReason⟩ ∧
    (processMessage env conversationId userMessage).completionCalls = 0 := by
  have hc : checkInputGuardrails userMessage = ⟨false, some inputPiiReason⟩ := by
    unfold checkInputGuardrails
    rw [h]
    rfl
  refine ⟨hc, ?_⟩
  unfold processMessage
  dsimp only
  rw [hc]
  rfl

/-- C5 witness: the statement at the concrete PII input
`"My SSN is 123-45-6789"` (the SSN pattern matches, and an injection
phrase is irrelevant). -/
theorem checkInput_pii_blocks_no_model_call_w :
    inputPiiPatterns.any (fun m => testPat m "My SSN is 123-45-6789") = true ∧
    (checkInputGuardrails "My SSN is 123-45-6789" = ⟨false, some inputPiiReason⟩ ∧
      (processMessage envFail 1 "My SSN is 123-45-6789").completionCalls = 0) :=
  ⟨by decide, checkInput_pii_blocks_no_model_call envFail 1 "My SSN is 123-45-6789" (by decide)⟩

/-- C6: every generated reply whose lower-cased text contains a listed
sensitive keyword and contains neither safe-harbor phrase `"we do not"`
nor `"never share"` is rejected by `checkOutputGuardrails`. -/
theorem checkOutput_sensitive_keyword_blocks (response : String)
    (h1 : (sensitiveKeywords.any fun k => containsSub k.data (lowerData response)) = true)
    (h2 : containsSub "we do not".data (lowerData response) = false)
    (h3 : containsSub "never share".data (lowerData response) = false) :
    (checkOutputGuardrails response).passed = false := by
  obtain ⟨k, hkmem, hck⟩ := List.any_eq_true.mp h1
  have hhit : sensitiveHit (lowerData response) k = true := by
    simp [sensitiveHit, hck, h2, h3]
  unfold checkOutputGuardrails
  cases hfind : sensitiveKeywords.find? (sensitiveHit (lowerData response)) with
  | none =>
      exact absurd hhit (List.find?_eq_none.mp hfind k hkmem)
  | some k' =>
      by_cases hp : outputPiiPatterns.any (fun m => testPat m response) = true
      · simp [hp]
      · simp [hp, hfind]

/-- C6 witness: the statement at the concrete reply
`"Here is the bank account number"`. -/
theorem checkOutput_sensitive_keyword_blocks_w :
    (sensitiveKeywords.any fun k =>
      containsSub k.data (lowerData "Here is the bank account number")) = true ∧
    containsSub "we do not".data (lowerData "Here is the bank account number") = false ∧
    containsSub "never share".data (lowerData "Here is the bank account number") = false ∧
    (checkOutputGuardrails "Here is the bank account number").passed = false :=
  ⟨by decide, by decide, by decide,
    checkOutput_sensitive_keyword_blocks "Here is the bank account number"
      (by decide) (by decide) (by decide)⟩

/-- C7: when the input guardrail passes and the primary completion call
throws with message `e`, `processMessage` persists exactly one trace
record with `blocked = false`, zero token usage, `model = "gpt-4o-mini"`,
null trace id, null assistant text, `guardrailResult = "error"`, null
evaluator score, the error message `e` in the feedback slot, and
re-raises the generic `"Failed to process message. Please try again."`
failure instead of the underlying error. -/
theorem processMessage_upstream_failure (env : AgentEnv)
    (conversationId : Nat) (userMessage : String) (e : String)
    (h1 : (checkInputGuardrails userMessage).passed = true)
    (h2 : env.completion = .error e) :
    processMessage env conversationId userMessage =
      { result := .error genericFailure
        traces := [⟨conversationId, none, "gpt-4o-mini", 0, 0, 0, userMessage,
                    none, "error", none, some e, false, none⟩]
        completionCalls := 1
        evaluatorCalls := 0 } := by
  unfold processMessage
  dsimp only
  rw [h1, h2]
  rfl

/-- C7 witness: the statement at the concrete passing input `"hello"`
and the concrete thrown error message `"network down"`. -/
theorem processMessage_upstream_failure_w :
    (checkInputGuardrails "hello").passed = true ∧
    processMessage envFail 1 "hello" =
      { result := .error genericFailure
        traces := [⟨1, none, "gpt-4o-mini", 0, 0, 0, "hello",
                    none, "error", none, some "network down", false, none⟩]
        completionCalls := 1
        evaluatorCalls := 0 } :=
  ⟨by decide, processMessage_upstream_failure envFail 1 "hello" "network down" (by decide) rfl⟩

/-- C8: `processEphemeralMessage` persists no trace record and issues no
evaluator call on any path — input-guardrail block, upstream failure,
output-guardrail block, and successful reply all emit zero
`createTraceLog` calls and zero evaluator calls. -/
theorem processEphemeral_no_trace_no_eval (env : AgentEnv)
    (userMessage : String) (history : List HistMsg) :
    (processEphemeralMessage env userMessage history).traces = [] ∧
    (processEphemeralMessage env userMessage history).evaluatorCalls = 0 := by
  unfold processEphemeralMessage
  dsimp only
  repeat' split
  all_goals exact ⟨rfl, rfl⟩

/-- C9: `buildSystemPrompt` is a deterministic function of the active
prompts and active documents returned by storage — two calls with no
intervening change to either collection yield byte-identical output. -/
theorem buildSystemPrompt_deterministic
    (prompts1 prompts2 : List ActivePrompt)
    (documents1 documents2 : List ActiveDocument)
    (hp : prompts1 = prompts2) (hd : documents1 = documents2) :
    buildSystemPrompt prompts1 documents1 = buildSystemPrompt prompts2 documents2 := by
  rw [hp, hd]

/-- C9 witness: the statement at one concrete active document and no
active prompts. -/
theorem buildSystemPrompt_deterministic_w :
    ([] : List ActivePrompt) = [] ∧
    ([⟨"Hours", "operations", "Open 6:30-6:30"⟩] : List ActiveDocument)
      = [⟨"Hours", "operations", "Open 6:30-6:30"⟩] ∧
    buildSystemPrompt [] [⟨"Hours", "operations", "Open 6:30-6:30"⟩]
      = buildSystemPrompt [] [⟨"Hours", "operations", "Open 6:30-6:30"⟩] :=
  ⟨rfl, rfl,
    buildSystemPrompt_deterministic [] [] [⟨"Hours", "operations", "Open 6:30-6:30"⟩]
      [⟨"Hours", "operations", "Open 6:30-6:30"⟩] rfl rfl⟩

/-- C10: when the completion call succeeds but its first choice carries
missing or empty message content, both `processMessage` and
`processEphemeralMessage` substitute the fixed apology sentence as the
assistant reply; the output guardrail passes that substitute, and both
entry points return it with `blocked = false` — an empty model reply is
never surfaced as a failure. -/
theorem empty_content_fallback_reply (env : AgentEnv)
    (conversationId : Nat) (userMessage : String) (history : List HistMsg)
    (c : ChatCompletion)
    (h1 : (checkInputGuardrails userMessage).passed = true)
    (h2 : env.completion = .ok c)
    (h3 : c.content = none ∨ c.content = some "") :
    (checkOutputGuardrails emptyReplyFallback).passed = true ∧
    (processMessage env conversationId userMessage).result
      = .ok ⟨emptyReplyFallback, false, none⟩ ∧
    (processEphemeralMessage env userMessage history).result
      = .ok ⟨emptyReplyFallback, false, none⟩ := by
  have hcontent : jsOrStr c.content emptyReplyFallback = emptyReplyFallback := by
    rcases h3 with h | h <;> rw [h] <;> rfl
  have hout : checkOutputGuardrails emptyReplyFallback = ⟨true, none⟩ := by decide
  refine ⟨by rw [hout], ?_, ?_⟩
  · unfold processMessage
    dsimp only
    rw [h1, h2]
    dsimp only
    rw [hcontent, hout]
    rfl
  · unfold processEphemeralMessage
    dsimp only
    rw [h1, h2]
    dsimp only
    rw [hcontent, hout]
    rfl

/-- C10 witness: the statement at the concrete passing input `"hello"`
and a completion whose first choice has no message content. -/
theorem empty_content_fallback_reply_w :
    (checkInputGuardrails "hello").passed = true ∧
    ((checkOutputGuardrails emptyReplyFallback).passed = true ∧
      (processMessage envEmptyContent 2 "hello").result
        = .ok ⟨emptyReplyFallback, false, none⟩ ∧
      (processEphemeralMessage envEmptyContent "hello" []).result
        = .ok ⟨emptyReplyFallback, false, none⟩) :=
  ⟨by decide, empty_content_fallback_reply envEmptyContent 2 "hello" []
    ⟨some "cmpl-7", some "gpt-4o-mini", none, none⟩ (by decide) rfl (Or.inl rfl)⟩
